import Mathlib

/-
Verification of the PostgreSQL MCP server (src/index.ts) against its
natural-language specification.  The file shallowly embeds the parts of the
program the claims are about:

* the information_schema queries issued by postgres_list_tables (line 225)
  and postgres_describe_table (line 263), over an explicit catalog model;
* the postgres_query handler (lines 174-213): BEGIN TRANSACTION READ ONLY,
  execution of the caller's SQL script, ROLLBACK in a finally block, over a
  small session/transaction semantics of the engine;
* executeDbQuery (lines 158-171): scoped pooled-connection acquisition with
  release in a finally block;
* withTimeout (lines 76-92) and the timing of connection release;
* the shutdown routine (lines 300-325) with its re-entrant guard, and the
  global fatal-error handlers (lines 410-418);
* the transport.onerror reconnection policy (lines 337-362) and the
  heartbeat check (lines 386-398);
* the database-URL resolution at startup (lines 96-112).
-/

/-- A single quote character, used in the not-found message of
postgres_describe_table. -/
def squote : String := String.singleton (Char.ofNat 39)

/-- One content block of a tool result (the code always produces blocks of
kind "text", see e.g. index.ts lines 195-200). -/
structure TextBlock where
  type : String
  text : String
deriving DecidableEq

/-- Outcome of one tool invocation as seen by the peer: either a success
payload (a list of content blocks) or a failure (the handler threw and the
framework surfaces the error message). -/
inductive ToolResponse
  | success (content : List TextBlock)
  | failure (message : String)
deriving DecidableEq

/-- One row of information_schema.columns, the catalog relation consulted by
postgres_describe_table.  The list order of rows in the catalog is the order
in which the engine returns them (the query at index.ts line 263 has no
ORDER BY clause). -/
structure ColumnRow where
  table_schema : String
  table_name : String
  ordinal_position : Nat
  column_name : String
  data_type : String
  is_nullable : String
  column_default : Option String
deriving DecidableEq

/-- One row of information_schema.tables, consulted by postgres_list_tables. -/
structure TableRow where
  table_schema : String
  table_name : String
deriving DecidableEq

/-- The visible catalog of the connected database. -/
structure Catalog where
  tables : List TableRow
  columns : List ColumnRow
deriving DecidableEq

/-- The projection selected by the describe-table query:
SELECT column_name, data_type, is_nullable, column_default. -/
structure DescribeRecord where
  column_name : String
  data_type : String
  is_nullable : String
  column_default : Option String
deriving DecidableEq

def projectColumn (c : ColumnRow) : DescribeRecord :=
  { column_name := c.column_name
    data_type := c.data_type
    is_nullable := c.is_nullable
    column_default := c.column_default }

/-- Rows returned by the query at index.ts line 263:
SELECT column_name, data_type, is_nullable, column_default
FROM information_schema.columns WHERE table_name = $1
(no schema restriction, no ORDER BY: rows come back in catalog order). -/
def describeTableRows (cat : Catalog) (t : String) : List DescribeRecord :=
  (cat.columns.filter (fun c => c.table_name == t)).map projectColumn

/-- Rows returned by the query at index.ts line 225:
SELECT table_name FROM information_schema.tables
WHERE table_schema = (the string public). -/
def listTablesRows (cat : Catalog) : List String :=
  (cat.tables.filter (fun r => r.table_schema == "public")).map (fun r => r.table_name)

/-- Stand-in for JSON.stringify of a list of records (the exact serialized
shape is not claim-relevant; only that the rows are wrapped in one text
block). -/
def serializeRecords (rs : List DescribeRecord) : String :=
  "[" ++ String.intercalate ", " (rs.map (fun r => r.column_name ++ ":" ++ r.data_type)) ++ "]"

/-- Stand-in for JSON.stringify of a list of strings. -/
def serializeRows (rows : List String) : String :=
  "[" ++ String.intercalate ", " rows ++ "]"

/-- The message produced at index.ts line 277 when the describe query finds
no columns. -/
def noColumnsMessage (t : String) : String :=
  "Table " ++ squote ++ t ++ squote ++ " not found or has no columns."

/-- The postgres_describe_table handler (index.ts lines 251-297).
queryError models the catalog query itself throwing (or timing out), in
which case the handler rethrows and the framework returns a failure. -/
def postgres_describe_table (cat : Catalog) (t : String) (queryError : Option String) :
    ToolResponse :=
  match queryError with
  | some e => ToolResponse.failure e
  | none =>
    let rows := describeTableRows cat t
    if rows.length = 0 then
      ToolResponse.success [{ type := "text", text := noColumnsMessage t }]
    else
      ToolResponse.success [{ type := "text", text := serializeRecords rows }]

/-- The postgres_list_tables handler (index.ts lines 215-249), success path. -/
def postgres_list_tables (cat : Catalog) : ToolResponse :=
  ToolResponse.success [{ type := "text", text := serializeRows (listTablesRows cat) }]

/-- Insertion of a column row into a list sorted by ordinal_position. -/
def insertByOrdinal (c : ColumnRow) : List ColumnRow → List ColumnRow
  | [] => [c]
  | d :: ds =>
    if c.ordinal_position ≤ d.ordinal_position then c :: d :: ds
    else d :: insertByOrdinal c ds

/-- Insertion sort of column rows by ordinal_position. -/
def sortByOrdinal : List ColumnRow → List ColumnRow
  | [] => []
  | c :: cs => insertByOrdinal c (sortByOrdinal cs)

/-- Bool-valued test that a list of column rows is already in
ordinal_position order. -/
def ordinalSorted : List ColumnRow → Bool
  | [] => true
  | [_] => true
  | a :: b :: rest =>
    decide (a.ordinal_position ≤ b.ordinal_position) && ordinalSorted (b :: rest)

/-- Modelled from the spec: the describe-table records in the schema's
natural column order (sorted by ordinal position) — the ordering the spec
asserts, used as the refinement target for the rows the code returns. -/
def describeTableRowsSpec (cat : Catalog) (t : String) : List DescribeRecord :=
  (sortByOrdinal (cat.columns.filter (fun c => c.table_name == t))).map projectColumn

theorem insertByOrdinal_of_le (c d : ColumnRow) (ds : List ColumnRow)
    (h : c.ordinal_position ≤ d.ordinal_position) :
    insertByOrdinal c (d :: ds) = c :: d :: ds := by
  simp [insertByOrdinal, h]

theorem sortByOrdinal_eq_self (l : List ColumnRow) (h : ordinalSorted l = true) :
    sortByOrdinal l = l := by
  induction l with
  | nil => rfl
  | cons a rest ih =>
    cases rest with
    | nil => rfl
    | cons b t =>
      have hab : a.ordinal_position ≤ b.ordinal_position := by
        have := h
        simp [ordinalSorted] at this
        exact this.1
      have hrest : ordinalSorted (b :: t) = true := by
        have := h
        simp [ordinalSorted] at this
        simpa [ordinalSorted] using this.2
      have := ih hrest
      simp [sortByOrdinal] at this ⊢
      rw [this]
      exact insertByOrdinal_of_le a b t hab

/-- Claim C5: when the describe-table query finds no columns for the given
name (nonexistent table or zero columns), the handler returns a success
response with exactly one descriptive text block — never an empty list and
never a failure. -/
theorem describe_table_empty_single_text_success (cat : Catalog) (t : String)
    (h : describeTableRows cat t = []) :
    postgres_describe_table cat t none =
      ToolResponse.success [{ type := "text", text := noColumnsMessage t }] := by
  simp [postgres_describe_table, h]

theorem describe_table_empty_single_text_success_witness :
    postgres_describe_table { tables := [], columns := [] } "no_such_table" none =
      ToolResponse.success [{ type := "text", text := noColumnsMessage "no_such_table" }] :=
  describe_table_empty_single_text_success { tables := [], columns := [] } "no_such_table" rfl

/-- A catalog whose rows for table emp arrive out of ordinal order (the
engine gives no ordering guarantee for a query without ORDER BY). -/
def catOutOfOrder : Catalog :=
  { tables := [{ table_schema := "public", table_name := "emp" }]
    columns :=
      [ { table_schema := "public", table_name := "emp", ordinal_position := 2,
          column_name := "b", data_type := "text", is_nullable := "YES", column_default := none }
      , { table_schema := "public", table_name := "emp", ordinal_position := 1,
          column_name := "a", data_type := "integer", is_nullable := "NO", column_default := none } ] }

/-- Claim C6 (counterexample): the describe-table query is issued without an
ORDER BY clause, so the records follow the engine's row order; on a catalog
whose rows for the table come back out of ordinal order, the output is not
the ordinal-position ordering the claim asserts. -/
theorem describe_table_ordinal_order_counterexample :
    describeTableRows catOutOfOrder "emp" ≠ describeTableRowsSpec catOutOfOrder "emp" := by
  decide

/-- Claim C6 (amended): the describe-table operation returns exactly one
record per catalog column of the named table, each carrying the column name,
data type, nullability flag and default expression, in the order the engine
returns the catalog rows (no ORDER BY is issued); the records are in
ordinal-position order exactly when the engine already returns them so. -/
theorem describe_table_records_per_column (cat : Catalog) (t : String) :
    (describeTableRows cat t).length
        = (cat.columns.filter (fun c => c.table_name == t)).length
    ∧ (∀ c, c ∈ cat.columns → c.table_name = t →
        projectColumn c ∈ describeTableRows cat t)
    ∧ (ordinalSorted (cat.columns.filter (fun c => c.table_name == t)) = true →
        describeTableRows cat t = describeTableRowsSpec cat t) := by
  refine ⟨?_, ?_, ?_⟩
  · simp [describeTableRows]
  · intro c hc ht
    exact List.mem_map_of_mem projectColumn (List.mem_filter.2 ⟨hc, by simp [ht]⟩)
  · intro hs
    simp [describeTableRows, describeTableRowsSpec, sortByOrdinal_eq_self _ hs]

/-- First column of the well-ordered witness catalog. -/
def colA : ColumnRow :=
  { table_schema := "public", table_name := "emp", ordinal_position := 1,
    column_name := "a", data_type := "integer", is_nullable := "NO", column_default := none }

/-- Second column of the well-ordered witness catalog. -/
def colB : ColumnRow :=
  { table_schema := "public", table_name := "emp", ordinal_position := 2,
    column_name := "b", data_type := "text", is_nullable := "YES", column_default := some "0" }

/-- A catalog whose rows for table emp arrive in ordinal order. -/
def catOrdered : Catalog :=
  { tables := [{ table_schema := "public", table_name := "emp" }]
    columns := [colA, colB] }

theorem describe_table_records_per_column_witness :
    (describeTableRows catOrdered "emp").length
        = (catOrdered.columns.filter (fun c => c.table_name == "emp")).length
    ∧ projectColumn colA ∈ describeTableRows catOrdered "emp"
    ∧ describeTableRows catOrdered "emp" = describeTableRowsSpec catOrdered "emp" :=
  ⟨(describe_table_records_per_column catOrdered "emp").1,
   (describe_table_records_per_column catOrdered "emp").2.1 colA (by decide) (by decide),
   (describe_table_records_per_column catOrdered "emp").2.2 (by decide)⟩

/-- Claim C9: the describe-table lookup filters only by table name (no
schema restriction), while list-tables restricts to the public schema:
every catalog column row carrying the given table name contributes a record
regardless of its schema (so same-named tables across schemas merge), and a
table existing only outside the public schema is describable with a
nonempty result even though list-tables never reports it. -/
theorem describe_table_schema_blind (cat : Catalog) (t : String) :
    (∀ c, c ∈ cat.columns → c.table_name = t →
        projectColumn c ∈ describeTableRows cat t)
    ∧ ((∃ c, c ∈ cat.columns ∧ c.table_name = t) → describeTableRows cat t ≠ [])
    ∧ ((∀ r, r ∈ cat.tables → r.table_name = t → r.table_schema ≠ "public") →
        t ∉ listTablesRows cat) := by
  refine ⟨?_, ?_, ?_⟩
  · intro c hc ht
    exact List.mem_map_of_mem projectColumn (List.mem_filter.2 ⟨hc, by simp [ht]⟩)
  · rintro ⟨c, hc, ht⟩ hnil
    have : projectColumn c ∈ describeTableRows cat t :=
      List.mem_map_of_mem projectColumn (List.mem_filter.2 ⟨hc, by simp [ht]⟩)
    rw [hnil] at this
    exact List.not_mem_nil _ this
  · intro hall hmem
    simp only [listTablesRows, List.mem_map, List.mem_filter] at hmem
    obtain ⟨r, ⟨hr, hsch⟩, hname⟩ := hmem
    exact hall r hr hname (by simpa using hsch)

/-- The single column of the witness catalog's non-public table. -/
def colHidden : ColumnRow :=
  { table_schema := "audit", table_name := "hidden", ordinal_position := 1,
    column_name := "id", data_type := "integer", is_nullable := "NO", column_default := none }

/-- A catalog whose only table lives outside the public schema. -/
def catHidden : Catalog :=
  { tables := [{ table_schema := "audit", table_name := "hidden" }]
    columns := [colHidden] }

theorem describe_table_schema_blind_witness :
    projectColumn colHidden ∈ describeTableRows catHidden "hidden"
    ∧ describeTableRows catHidden "hidden" ≠ []
    ∧ "hidden" ∉ listTablesRows catHidden :=
  ⟨(describe_table_schema_blind catHidden "hidden").1 colHidden (by decide) (by decide),
   (describe_table_schema_blind catHidden "hidden").2.1 ⟨colHidden, by decide, by decide⟩,
   (describe_table_schema_blind catHidden "hidden").2.2 (by decide)⟩

/-- Durable database state: tables with their rows. -/
abbrev Db := List (String × List String)

/-- One SQL statement of the caller's script, at the granularity the claims
need: a read, a row-inserting write, or an explicit transaction-control
statement.  Postgres executes a multi-statement query string statement by
statement, so a submitted script may contain its own COMMIT or ROLLBACK. -/
inductive Stmt
  | readStmt (table : String)
  | writeStmt (table : String) (row : String)
  | commitStmt
  | rollbackStmt
deriving DecidableEq

/-- An open transaction: its read-only flag, its working snapshot of the
database, and whether a prior error aborted it. -/
structure Txn where
  readOnly : Bool
  workingDb : Db
  aborted : Bool
deriving DecidableEq

/-- One engine session (the server side of one pooled connection). -/
structure Session where
  committedDb : Db
  txn : Option Txn
deriving DecidableEq

def applyWrite (db : Db) (t : String) (r : String) : Db :=
  match db with
  | [] => [(t, [r])]
  | (n, rows) :: rest =>
    if n = t then (n, rows ++ [r]) :: rest else (n, rows) :: applyWrite rest t r

def lookupRows (db : Db) (t : String) : List String :=
  match db with
  | [] => []
  | (n, rows) :: rest => if n = t then rows else lookupRows rest t

/-- Engine semantics of one statement.  A write inside a read-only
transaction errors and aborts the transaction; inside an aborted
transaction every data statement errors; COMMIT of an aborted transaction
acts as a rollback; COMMIT of a live transaction makes its working state
durable; transaction control outside a transaction is a warning-level
no-op that still succeeds. -/
def execStmt (s : Session) : Stmt → Session × Option (List String)
  | Stmt.readStmt t =>
    match s.txn with
    | some tx => if tx.aborted then (s, none) else (s, some (lookupRows tx.workingDb t))
    | none => (s, some (lookupRows s.committedDb t))
  | Stmt.writeStmt t r =>
    match s.txn with
    | some tx =>
      if tx.aborted then (s, none)
      else if tx.readOnly then ({ s with txn := some { tx with aborted := true } }, none)
      else ({ s with txn := some { tx with workingDb := applyWrite tx.workingDb t r } }, some [])
    | none => ({ s with committedDb := applyWrite s.committedDb t r }, some [])
  | Stmt.commitStmt =>
    match s.txn with
    | some tx =>
      if tx.aborted then ({ s with txn := none }, some [])
      else ({ committedDb := tx.workingDb, txn := none }, some [])
    | none => (s, some [])
  | Stmt.rollbackStmt => ({ s with txn := none }, some [])

/-- Execution of a multi-statement script: the first error stops the
remainder; the result rows are those of the last executed statement. -/
def execScript (s : Session) : List Stmt → Session × Option (List String)
  | [] => (s, some [])
  | st :: rest =>
    match execStmt s st with
    | (s1, some res) => if rest.isEmpty then (s1, some res) else execScript s1 rest
    | (s1, none) => (s1, none)

/-- Effect of the BEGIN TRANSACTION READ ONLY issued at index.ts line 184. -/
def beginReadOnly (s : Session) : Session :=
  { s with txn := some { readOnly := true, workingDb := s.committedDb, aborted := false } }

/-- Effect of the ROLLBACK issued in the finally block at index.ts line 204. -/
def sessionRollback (s : Session) : Session := { s with txn := none }

/-- Commands the postgres_query handler issues on its pooled connection, in
program order (index.ts lines 183-206). -/
inductive DbCmd
  | beginReadOnlyCmd
  | queryCmd (script : List Stmt)
  | rollbackCmd
deriving DecidableEq

/-- The 30 second timeout of index.ts line 36. -/
def API_TIMEOUT_MS : Nat := 30000

/-- The rejection message built by createTimeout (index.ts line 71). -/
def timeoutMessage (ms : Nat) (ctx : String) : String :=
  "Timeout after " ++ toString ms ++ "ms: " ++ ctx

/-- Result of one postgres_query invocation: the durable database state
afterwards, the commands issued on the connection, and the response. -/
structure QueryRun where
  finalDb : Db
  trace : List DbCmd
  response : ToolResponse
deriving DecidableEq

/-- The postgres_query handler (index.ts lines 174-213) against a database
in state db: BEGIN TRANSACTION READ ONLY, then the caller's script as one
query raced against the 30s timer, then — in the finally block, on
success, error and timeout alike — a fire-and-forget ROLLBACK.  A timed-out
script still runs to completion server side (the rollback is queued behind
it), so the database effect is that of the full script in every case. -/
def postgresQueryRun (db : Db) (script : List Stmt) (timesOut : Bool) : QueryRun :=
  let s0 := beginReadOnly { committedDb := db, txn := none }
  let r := execScript s0 script
  let s1 := sessionRollback r.1
  { finalDb := s1.committedDb
    trace := [DbCmd.beginReadOnlyCmd, DbCmd.queryCmd script, DbCmd.rollbackCmd]
    response :=
      if timesOut then
        ToolResponse.failure (timeoutMessage API_TIMEOUT_MS "Executing SQL query")
      else
        match r.2 with
        | some rows => ToolResponse.success [{ type := "text", text := serializeRows rows }]
        | none => ToolResponse.failure "query failed" }

theorem execStmt_preserves (s : Session) (st : Stmt) (tx : Txn)
    (htx : s.txn = some tx) (hro : tx.readOnly = true)
    (hst : st ≠ Stmt.commitStmt) (hst2 : st ≠ Stmt.rollbackStmt) :
    (execStmt s st).1.committedDb = s.committedDb
    ∧ ∃ tx2, (execStmt s st).1.txn = some tx2 ∧ tx2.readOnly = true := by
  cases st with
  | readStmt t =>
    refine ⟨?_, tx, ?_, hro⟩ <;> by_cases hab : tx.aborted <;> simp [execStmt, htx, hab]
  | writeStmt t r =>
    by_cases hab : tx.aborted
    · refine ⟨?_, tx, ?_, hro⟩ <;> simp [execStmt, htx, hab]
    · refine ⟨?_, { tx with aborted := true }, ?_, hro⟩ <;>
        simp [execStmt, htx, hab, hro]
  | commitStmt => exact absurd rfl hst
  | rollbackStmt => exact absurd rfl hst2

theorem execScript_preserves (script : List Stmt) :
    ∀ (s : Session) (tx : Txn), s.txn = some tx → tx.readOnly = true →
    Stmt.commitStmt ∉ script → Stmt.rollbackStmt ∉ script →
    (execScript s script).1.committedDb = s.committedDb := by
  induction script with
  | nil => intro s tx _ _ _ _; rfl
  | cons st rest ih =>
    intro s tx htx hro hc hr
    have hst : st ≠ Stmt.commitStmt := fun h => hc (h ▸ List.mem_cons_self st rest)
    have hst2 : st ≠ Stmt.rollbackStmt := fun h => hr (h ▸ List.mem_cons_self st rest)
    have hcr : Stmt.commitStmt ∉ rest := fun h => hc (List.mem_cons_of_mem st h)
    have hrr : Stmt.rollbackStmt ∉ rest := fun h => hr (List.mem_cons_of_mem st h)
    obtain ⟨h1, tx2, htx2, hro2⟩ := execStmt_preserves s st tx htx hro hst hst2
    rcases hE : execStmt s st with ⟨s1, res⟩
    rw [hE] at h1 htx2
    cases res with
    | none => simpa [execScript, hE] using h1
    | some v =>
      by_cases he : rest.isEmpty
      · simpa [execScript, hE, he] using h1
      · have hrec := ih s1 tx2 htx2 hro2 hcr hrr
        have hstep : execScript s (st :: rest) = execScript s1 rest := by
          simp [execScript, hE, he]
        rw [hstep, hrec]
        exact h1

/-- Claim C1 (counterexample): a SQL script that first issues COMMIT ends
the explicitly read-only transaction, so its following INSERT runs
autocommitted and survives the handler's final ROLLBACK — the handler does
open BEGIN TRANSACTION READ ONLY and does issue ROLLBACK afterwards, yet
the database state is durably mutated, refuting the claim that no
statement submitted through this operation durably mutates state. -/
theorem postgres_query_commit_escape_counterexample :
    (postgresQueryRun [("t", [])] [Stmt.commitStmt, Stmt.writeStmt "t" "x"] false).finalDb
        = [("t", ["x"])]
    ∧ (postgresQueryRun [("t", [])] [Stmt.commitStmt, Stmt.writeStmt "t" "x"] false).finalDb
        ≠ [("t", [])]
    ∧ (postgresQueryRun [("t", [])] [Stmt.commitStmt, Stmt.writeStmt "t" "x"] false).trace
        = [DbCmd.beginReadOnlyCmd,
           DbCmd.queryCmd [Stmt.commitStmt, Stmt.writeStmt "t" "x"],
           DbCmd.rollbackCmd] := by
  refine ⟨rfl, by decide, rfl⟩

/-- Claim C1 (amended): every script passed to postgres_query is executed
inside a transaction opened with BEGIN TRANSACTION READ ONLY, and ROLLBACK
is issued afterwards on every outcome (success, handler error, timeout);
consequently a script containing no transaction-control statement of its
own leaves the durable database state unchanged — but a script embedding
its own COMMIT or ROLLBACK escapes the read-only transaction, so the
no-durable-mutation guarantee holds only for such scripts. -/
theorem postgres_query_rollback_invariant (db : Db) (script : List Stmt) (timesOut : Bool)
    (hc : Stmt.commitStmt ∉ script) (hr : Stmt.rollbackStmt ∉ script) :
    (postgresQueryRun db script timesOut).finalDb = db
    ∧ (postgresQueryRun db script timesOut).trace
        = [DbCmd.beginReadOnlyCmd, DbCmd.queryCmd script, DbCmd.rollbackCmd] := by
  constructor
  · have h := execScript_preserves script (beginReadOnly { committedDb := db, txn := none })
      { readOnly := true, workingDb := db, aborted := false } rfl rfl hc hr
    simpa [postgresQueryRun, sessionRollback, beginReadOnly] using h
  · rfl

theorem postgres_query_rollback_invariant_witness :
    (postgresQueryRun [("t", ["r1"])] [Stmt.writeStmt "t" "x", Stmt.readStmt "t"] true).finalDb
        = [("t", ["r1"])]
    ∧ (postgresQueryRun [("t", ["r1"])] [Stmt.writeStmt "t" "x", Stmt.readStmt "t"] true).trace
        = [DbCmd.beginReadOnlyCmd,
           DbCmd.queryCmd [Stmt.writeStmt "t" "x", Stmt.readStmt "t"],
           DbCmd.rollbackCmd] :=
  postgres_query_rollback_invariant [("t", ["r1"])]
    [Stmt.writeStmt "t" "x", Stmt.readStmt "t"] true (by decide) (by decide)

/-- Bookkeeping of the bounded connection pool (index.ts lines 114-120). -/
structure PoolState where
  leased : Nat
  connectCount : Nat
  releaseCount : Nat
deriving DecidableEq

/-- Result of the queryFn callback passed to executeDbQuery: it either
returns a value or throws (a database error or the withTimeout
rejection). -/
inductive Outcome (T : Type)
  | ok (v : T)
  | threw (e : String)
deriving DecidableEq

/-- executeDbQuery (index.ts lines 158-171): awaits pool.connect() outside
the try block (so a failed acquire releases nothing), runs queryFn, and
releases the client in the finally block on every exit path — normal
return, thrown error, and the timeout rejection alike; errors are logged
and rethrown unchanged. -/
def executeDbQuery {T : Type} (p : PoolState) (acquireOk : Bool) (outcome : Outcome T) :
    PoolState × Outcome T :=
  if acquireOk then
    let p1 : PoolState :=
      { p with leased := p.leased + 1, connectCount := p.connectCount + 1 }
    let p2 : PoolState :=
      { p1 with leased := p1.leased - 1, releaseCount := p1.releaseCount + 1 }
    (p2, outcome)
  else
    (p, Outcome.threw "failed to acquire a pooled connection")

/-- Claim C2: every handler invocation that successfully acquires a pooled
connection releases it exactly once on every exit path — the release count
rises by exactly one and the lease count returns to its prior value whether
the handler returned a value or threw (including the timeout rejection) —
while a failed acquire touches nothing. -/
theorem executeDbQuery_release_exactly_once (p : PoolState) (outcome : Outcome (List String)) :
    ((executeDbQuery p true outcome).1.releaseCount = p.releaseCount + 1)
    ∧ ((executeDbQuery p true outcome).1.leased = p.leased)
    ∧ ((executeDbQuery p true outcome).2 = outcome)
    ∧ ((executeDbQuery p false outcome).1 = p) := by
  refine ⟨rfl, ?_, rfl, rfl⟩
  simp [executeDbQuery]

/-- Timing view of one postgres_query call whose underlying database query
settles server side at time tq (milliseconds from the start of the
call). -/
structure TimedRun where
  response : Except String (List String)
  responseTime : Nat
  releaseTime : Nat
  serverCancelled : Bool
  queryFinishTime : Nat

/-- withTimeout (index.ts lines 76-92) as a function of the racing
promise's settle time tq and result: the Promise.race settles at the
earlier of tq and timeoutMs, the timer rejection winning exactly when tq
exceeds the budget. -/
def withTimeout (tq : Nat) (timeoutMs : Nat) (ctx : String)
    (result : Except String (List String)) : Nat × Except String (List String) :=
  if tq ≤ timeoutMs then (tq, result)
  else (timeoutMs, Except.error (timeoutMessage timeoutMs ctx))

/-- Timing of one postgres_query call (index.ts lines 174-213 composed with
executeDbQuery, lines 158-171): the handler's await settles when the race
settles; the finally blocks then run immediately — the ROLLBACK is issued
fire-and-forget and client.release() is called at that same settle time.
Nothing cancels the server-side query, which keeps running until tq. -/
def postgresQueryTimedRun (tq : Nat) (result : Except String (List String)) : TimedRun :=
  let raced := withTimeout tq API_TIMEOUT_MS "Executing SQL query" result
  { response := raced.2
    responseTime := raced.1
    releaseTime := raced.1
    serverCancelled := false
    queryFinishTime := tq }

/-- Claim C3 (counterexample): for a query that would settle at 40s the
handler produces the timeout failure at 30s and client.release() runs at
30s — strictly before the in-flight database call returns at 40s — refuting
the claim that the leased connection is released only once the in-flight
call eventually returns. -/
theorem timeout_release_before_query_returns_counterexample :
    (postgresQueryTimedRun 40000 (Except.ok [])).response
        = Except.error (timeoutMessage 30000 "Executing SQL query")
    ∧ (postgresQueryTimedRun 40000 (Except.ok [])).serverCancelled = false
    ∧ (postgresQueryTimedRun 40000 (Except.ok [])).releaseTime = 30000
    ∧ (postgresQueryTimedRun 40000 (Except.ok [])).queryFinishTime = 40000
    ∧ ¬ (postgresQueryTimedRun 40000 (Except.ok [])).queryFinishTime
        ≤ (postgresQueryTimedRun 40000 (Except.ok [])).releaseTime := by
  refine ⟨rfl, rfl, by decide, rfl, by decide⟩

/-- Claim C3 (amended): for every call whose underlying query has not
settled within the 30-second budget, a TimeoutError failure response is
produced at 30s, the underlying database operation is not cancelled server
side, and the leased connection is released immediately when the timeout
fires — at 30s, strictly before the in-flight call returns — rather than
only once that call eventually returns. -/
theorem timeout_produces_error_and_immediate_release (tq : Nat)
    (result : Except String (List String)) (h : API_TIMEOUT_MS < tq) :
    (postgresQueryTimedRun tq result).response
        = Except.error (timeoutMessage API_TIMEOUT_MS "Executing SQL query")
    ∧ (postgresQueryTimedRun tq result).responseTime = API_TIMEOUT_MS
    ∧ (postgresQueryTimedRun tq result).serverCancelled = false
    ∧ (postgresQueryTimedRun tq result).releaseTime = API_TIMEOUT_MS
    ∧ (postgresQueryTimedRun tq result).releaseTime
        < (postgresQueryTimedRun tq result).queryFinishTime := by
  have hn : ¬ tq ≤ API_TIMEOUT_MS := Nat.not_le.2 h
  refine ⟨?_, ?_, rfl, ?_, ?_⟩ <;>
    simp [postgresQueryTimedRun, withTimeout, hn]
  exact h

theorem timeout_produces_error_and_immediate_release_witness :
    (postgresQueryTimedRun 40000 (Except.error "slow query")).response
        = Except.error (timeoutMessage API_TIMEOUT_MS "Executing SQL query")
    ∧ (postgresQueryTimedRun 40000 (Except.error "slow query")).responseTime = API_TIMEOUT_MS
    ∧ (postgresQueryTimedRun 40000 (Except.error "slow query")).serverCancelled = false
    ∧ (postgresQueryTimedRun 40000 (Except.error "slow query")).releaseTime = API_TIMEOUT_MS
    ∧ (postgresQueryTimedRun 40000 (Except.error "slow query")).releaseTime
        < (postgresQueryTimedRun 40000 (Except.error "slow query")).queryFinishTime :=
  timeout_produces_error_and_immediate_release 40000 (Except.error "slow query") (by decide)

/-- One atomic step of the shutdown routine (index.ts lines 300-325): the
guard check-and-set (lines 301-305, synchronous before the first await, so
atomic in the single-threaded event loop), the pool teardown, the transport
closure, and process.exit(0). -/
inductive SAct
  | guardAct
  | closePoolAct
  | closeTransportAct
  | exitAct
deriving DecidableEq

/-- Observable shutdown state: the isShuttingDown guard flag, whether
process.exit has run, and how often each teardown step was performed. -/
structure ShutSt where
  flag : Bool
  halted : Bool
  poolCloses : Nat
  transportCloses : Nat
  exits : Nat
deriving DecidableEq

/-- The body of the shutdown function as its sequence of atomic steps. -/
def shutdownProg : List SAct :=
  [SAct.guardAct, SAct.closePoolAct, SAct.closeTransportAct, SAct.exitAct]

/-- One step of one in-flight shutdown invocation: after process.exit
nothing runs any more; a guard that finds the flag already set makes the
invocation return with no further steps. -/
def sstep (s : ShutSt) (p : List SAct) : ShutSt × List SAct :=
  if s.halted then (s, [])
  else
    match p with
    | [] => (s, [])
    | SAct.guardAct :: rest => if s.flag then (s, []) else ({ s with flag := true }, rest)
    | SAct.closePoolAct :: rest => ({ s with poolCloses := s.poolCloses + 1 }, rest)
    | SAct.closeTransportAct :: rest =>
        ({ s with transportCloses := s.transportCloses + 1 }, rest)
    | SAct.exitAct :: rest => ({ s with exits := s.exits + 1, halted := true }, rest)

/-- Two concurrent shutdown invocations with their remaining steps. -/
structure SConfig where
  st : ShutSt
  p1 : List SAct
  p2 : List SAct
deriving DecidableEq

/-- Run the two invocations under an arbitrary interleaving: true steps the
first invocation, false the second. -/
def srun (c : SConfig) : List Bool → SConfig
  | [] => c
  | true :: bs =>
    let r := sstep c.st c.p1
    srun { st := r.1, p1 := r.2, p2 := c.p2 } bs
  | false :: bs =>
    let r := sstep c.st c.p2
    srun { st := r.1, p1 := c.p1, p2 := r.2 } bs

/-- The initial configuration: guard flag clear, nothing torn down, two
invocations (for example two termination signals in quick succession, or a
signal plus a fatal error) each about to run the full shutdown body. -/
def sinit : SConfig :=
  { st := { flag := false, halted := false, poolCloses := 0, transportCloses := 0, exits := 0 }
    p1 := shutdownProg
    p2 := shutdownProg }

/-- All configurations reachable from sinit under any interleaving of the
two invocations. -/
def sreach : List SConfig :=
  [ sinit
  , { st := { flag := true, halted := false, poolCloses := 0, transportCloses := 0, exits := 0 }
      p1 := [SAct.closePoolAct, SAct.closeTransportAct, SAct.exitAct], p2 := shutdownProg }
  , { st := { flag := true, halted := false, poolCloses := 0, transportCloses := 0, exits := 0 }
      p1 := [SAct.closePoolAct, SAct.closeTransportAct, SAct.exitAct], p2 := [] }
  , { st := { flag := true, halted := false, poolCloses := 0, transportCloses := 0, exits := 0 }
      p1 := shutdownProg, p2 := [SAct.closePoolAct, SAct.closeTransportAct, SAct.exitAct] }
  , { st := { flag := true, halted := false, poolCloses := 0, transportCloses := 0, exits := 0 }
      p1 := [], p2 := [SAct.closePoolAct, SAct.closeTransportAct, SAct.exitAct] }
  , { st := { flag := true, halted := false, poolCloses := 1, transportCloses := 0, exits := 0 }
      p1 := [SAct.closeTransportAct, SAct.exitAct], p2 := shutdownProg }
  , { st := { flag := true, halted := false, poolCloses := 1, transportCloses := 0, exits := 0 }
      p1 := [SAct.closeTransportAct, SAct.exitAct], p2 := [] }
  , { st := { flag := true, halted := false, poolCloses := 1, transportCloses := 0, exits := 0 }
      p1 := shutdownProg, p2 := [SAct.closeTransportAct, SAct.exitAct] }
  , { st := { flag := true, halted := false, poolCloses := 1, transportCloses := 0, exits := 0 }
      p1 := [], p2 := [SAct.closeTransportAct, SAct.exitAct] }
  , { st := { flag := true, halted := false, poolCloses := 1, transportCloses := 1, exits := 0 }
      p1 := [SAct.exitAct], p2 := shutdownProg }
  , { st := { flag := true, halted := false, poolCloses := 1, transportCloses := 1, exits := 0 }
      p1 := [SAct.exitAct], p2 := [] }
  , { st := { flag := true, halted := false, poolCloses := 1, transportCloses := 1, exits := 0 }
      p1 := shutdownProg, p2 := [SAct.exitAct] }
  , { st := { flag := true, halted := false, poolCloses := 1, transportCloses := 1, exits := 0 }
      p1 := [], p2 := [SAct.exitAct] }
  , { st := { flag := true, halted := true, poolCloses := 1, transportCloses := 1, exits := 1 }
      p1 := shutdownProg, p2 := shutdownProg }
  , { st := { flag := true, halted := true, poolCloses := 1, transportCloses := 1, exits := 1 }
      p1 := shutdownProg, p2 := [] }
  , { st := { flag := true, halted := true, poolCloses := 1, transportCloses := 1, exits := 1 }
      p1 := [], p2 := shutdownProg }
  , { st := { flag := true, halted := true, poolCloses := 1, transportCloses := 1, exits := 1 }
      p1 := [], p2 := [] } ]

theorem sreach_closed :
    ∀ c ∈ sreach,
      ({ st := (sstep c.st c.p1).1, p1 := (sstep c.st c.p1).2, p2 := c.p2 } : SConfig) ∈ sreach
      ∧ ({ st := (sstep c.st c.p2).1, p1 := c.p1, p2 := (sstep c.st c.p2).2 } : SConfig)
          ∈ sreach := by
  decide

theorem sreach_good :
    ∀ c ∈ sreach,
      c.st.poolCloses ≤ 1 ∧ c.st.transportCloses ≤ 1 ∧ c.st.exits ≤ 1
      ∧ (c.st.halted = true →
          c.st.poolCloses = 1 ∧ c.st.transportCloses = 1 ∧ c.st.exits = 1) := by
  decide

theorem srun_mem (bs : List Bool) :
    ∀ c ∈ sreach, srun c bs ∈ sreach := by
  induction bs with
  | nil => intro c hc; exact hc
  | cons b bs ih =>
    intro c hc
    cases b with
    | true => exact ih _ ((sreach_closed c hc).1)
    | false => exact ih _ ((sreach_closed c hc).2)

/-- Claim C4: the shutdown routine is idempotent — under every interleaving
of two trigger invocations (two signals in quick succession, a signal plus
a fatal error, ...), the re-entrant guard flag ensures the pool teardown,
the transport closure and process.exit are each performed at most once, and
exactly once whenever the process has exited; moreover any invocation that
finds the guard flag already set returns without performing any teardown
step. -/
theorem shutdown_idempotent_teardown_once (bs : List Bool) (s : ShutSt) :
    ((srun sinit bs).st.poolCloses ≤ 1
      ∧ (srun sinit bs).st.transportCloses ≤ 1
      ∧ (srun sinit bs).st.exits ≤ 1)
    ∧ ((srun sinit bs).st.halted = true →
        (srun sinit bs).st.poolCloses = 1
        ∧ (srun sinit bs).st.transportCloses = 1
        ∧ (srun sinit bs).st.exits = 1)
    ∧ (s.flag = true → s.halted = false → sstep s shutdownProg = (s, [])) := by
  have hmem := srun_mem bs sinit (by decide)
  obtain ⟨h1, h2, h3, h4⟩ := sreach_good _ hmem
  refine ⟨⟨h1, h2, h3⟩, h4, ?_⟩
  intro hf hh
  simp [sstep, shutdownProg, hf, hh]

theorem shutdown_idempotent_teardown_once_witness :
    ((srun sinit [true, true, true, true]).st.poolCloses = 1
      ∧ (srun sinit [true, true, true, true]).st.transportCloses = 1
      ∧ (srun sinit [true, true, true, true]).st.exits = 1)
    ∧ sstep { flag := true, halted := false, poolCloses := 1, transportCloses := 1, exits := 0 }
          shutdownProg
        = ({ flag := true, halted := false, poolCloses := 1, transportCloses := 1, exits := 0 },
           []) :=
  ⟨(shutdown_idempotent_teardown_once [true, true, true, true]
      { flag := false, halted := false, poolCloses := 0, transportCloses := 0, exits := 0 }).2.1
      (by decide),
   (shutdown_idempotent_teardown_once []
      { flag := true, halted := false, poolCloses := 1, transportCloses := 1, exits := 0 }).2.2
      rfl rfl⟩

/-- The heartbeat interval of index.ts line 37. -/
def HEARTBEAT_INTERVAL_MS : Nat := 5000

/-- The maximum reconnection attempts of index.ts line 38. -/
def MAX_RECONNECT_ATTEMPTS : Nat := 5

/-- The fixed reconnection backoff of index.ts line 39. -/
def RECONNECT_DELAY_MS : Nat := 1000

/-- The connection-state record of index.ts lines 42-47. -/
structure ConnectionState where
  isConnected : Bool
  reconnectAttempts : Nat
  lastHeartbeat : Nat
  isShuttingDown : Bool
deriving DecidableEq

/-- Actions the recovery path emits. -/
inductive MonitorAction
  | scheduleReconnect (delayMs : Nat)
  | invokeShutdown
deriving DecidableEq

/-- transport.onerror (index.ts lines 337-362): below the maximum the
counter is incremented and exactly one reattachment is scheduled after the
fixed delay; at the maximum, shutdown is invoked instead. -/
def transportOnError (s : ConnectionState) : ConnectionState × List MonitorAction :=
  if s.reconnectAttempts < MAX_RECONNECT_ATTEMPTS then
    ({ s with reconnectAttempts := s.reconnectAttempts + 1 },
     [MonitorAction.scheduleReconnect RECONNECT_DELAY_MS])
  else
    (s, [MonitorAction.invokeShutdown])

/-- Completion of the scheduled reattachment (the setTimeout body, index.ts
lines 344-357): on success the connected flag is set and the counter
resets to zero; on failure, shutdown is invoked exactly when the counter
has reached the maximum. -/
def reconnectAttemptCompletes (s : ConnectionState) (success : Bool) :
    ConnectionState × List MonitorAction :=
  if success then
    ({ s with isConnected := true, reconnectAttempts := 0 }, [])
  else if MAX_RECONNECT_ATTEMPTS ≤ s.reconnectAttempts then
    (s, [MonitorAction.invokeShutdown])
  else
    (s, [])

/-- The periodic heartbeat check (index.ts lines 386-398): when connected
and the gap since the last heartbeat exceeds twice the interval, it invokes
the same transport.onerror recovery path; otherwise it does nothing. -/
def heartbeatCheck (s : ConnectionState) (now : Nat) : ConnectionState × List MonitorAction :=
  if s.isConnected = false then (s, [])
  else if HEARTBEAT_INTERVAL_MS * 2 < now - s.lastHeartbeat then transportOnError s
  else (s, [])

/-- Claim C7: on every transport-error or heartbeat-timeout event, if the
reconnect counter is below the maximum of 5 it is incremented and exactly
one reattachment is scheduled after the fixed 1-second backoff; a
successful reattachment resets the counter to zero; once the maximum is
reached the next event invokes shutdown, as does the failure of the final
attempt; and a heartbeat timeout takes exactly the transport-error path. -/
theorem reconnect_policy_per_event (s : ConnectionState) (now : Nat) :
    (s.reconnectAttempts < MAX_RECONNECT_ATTEMPTS →
      transportOnError s
        = ({ s with reconnectAttempts := s.reconnectAttempts + 1 },
           [MonitorAction.scheduleReconnect RECONNECT_DELAY_MS]))
    ∧ (reconnectAttemptCompletes s true
        = ({ s with isConnected := true, reconnectAttempts := 0 }, []))
    ∧ (MAX_RECONNECT_ATTEMPTS ≤ s.reconnectAttempts →
        transportOnError s = (s, [MonitorAction.invokeShutdown]))
    ∧ (MAX_RECONNECT_ATTEMPTS ≤ s.reconnectAttempts →
        reconnectAttemptCompletes s false = (s, [MonitorAction.invokeShutdown]))
    ∧ (s.isConnected = true → HEARTBEAT_INTERVAL_MS * 2 < now - s.lastHeartbeat →
        heartbeatCheck s now = transportOnError s) := by
  refine ⟨?_, ?_, ?_, ?_, ?_⟩
  · intro h; simp [transportOnError, h]
  · simp [reconnectAttemptCompletes]
  · intro h; simp [transportOnError, Nat.not_lt.2 h]
  · intro h; simp [reconnectAttemptCompletes, h]
  · intro hc hg; simp [heartbeatCheck, hc, hg]

theorem reconnect_policy_per_event_witness :
    transportOnError
        { isConnected := true, reconnectAttempts := 0, lastHeartbeat := 0,
          isShuttingDown := false }
      = ({ isConnected := true, reconnectAttempts := 1, lastHeartbeat := 0,
           isShuttingDown := false },
         [MonitorAction.scheduleReconnect RECONNECT_DELAY_MS])
    ∧ transportOnError
        { isConnected := false, reconnectAttempts := 5, lastHeartbeat := 0,
          isShuttingDown := false }
      = ({ isConnected := false, reconnectAttempts := 5, lastHeartbeat := 0,
           isShuttingDown := false },
         [MonitorAction.invokeShutdown])
    ∧ reconnectAttemptCompletes
        { isConnected := false, reconnectAttempts := 5, lastHeartbeat := 0,
          isShuttingDown := false } false
      = ({ isConnected := false, reconnectAttempts := 5, lastHeartbeat := 0,
           isShuttingDown := false },
         [MonitorAction.invokeShutdown])
    ∧ heartbeatCheck
        { isConnected := true, reconnectAttempts := 0, lastHeartbeat := 0,
          isShuttingDown := false } 20000
      = transportOnError
        { isConnected := true, reconnectAttempts := 0, lastHeartbeat := 0,
          isShuttingDown := false } :=
  ⟨(reconnect_policy_per_event
      { isConnected := true, reconnectAttempts := 0, lastHeartbeat := 0,
        isShuttingDown := false } 20000).1 (by decide),
   (reconnect_policy_per_event
      { isConnected := false, reconnectAttempts := 5, lastHeartbeat := 0,
        isShuttingDown := false } 0).2.2.1 (by decide),
   (reconnect_policy_per_event
      { isConnected := false, reconnectAttempts := 5, lastHeartbeat := 0,
        isShuttingDown := false } 0).2.2.2.1 (by decide),
   (reconnect_policy_per_event
      { isConnected := true, reconnectAttempts := 0, lastHeartbeat := 0,
        isShuttingDown := false } 20000).2.2.2.2 rfl (by decide)⟩

/-- Startup events up to pool construction (index.ts lines 96-120). -/
inductive StartupEvent
  | printedMissingUrlError
  | exitedWith (code : Nat)
  | constructedPool (connectionString : String)
deriving DecidableEq

/-- The connection-string resolution (index.ts lines 96-112): DATABASE_URL
from the environment wins when set; otherwise the first command-line
argument (process.argv.slice(2)). -/
def resolveDatabaseUrl (envUrl : Option String) (argv : List String) : Option String :=
  match envUrl with
  | some url => some url
  | none => argv.head?

/-- The startup trace through pool construction (index.ts lines 96-120): a
failed resolution prints the error and calls process.exit(1) before
new pg.Pool ever runs; otherwise the pool is constructed with the resolved
string (and only later does startServer attach the transport). -/
def startupTrace (envUrl : Option String) (argv : List String) : List StartupEvent :=
  match envUrl with
  | some url => [StartupEvent.constructedPool url]
  | none =>
    match argv with
    | [] => [StartupEvent.printedMissingUrlError, StartupEvent.exitedWith 1]
    | a :: _ => [StartupEvent.constructedPool a]

/-- Claim C8: the connection string is taken from the DATABASE_URL
environment variable when set (even when command-line arguments are also
present); only when it is absent is the first command-line argument used;
when both are absent the process prints an error and exits with code 1
without ever constructing the pool (and hence before the transport is
attached, which happens only after pool construction). -/
theorem database_url_resolution (envUrl : Option String) (argv : List String) (u : String) :
    (envUrl = some u → startupTrace envUrl argv = [StartupEvent.constructedPool u])
    ∧ (envUrl = none → ∀ a rest, argv = a :: rest →
        startupTrace envUrl argv = [StartupEvent.constructedPool a])
    ∧ (envUrl = none → argv = [] →
        startupTrace envUrl argv
            = [StartupEvent.printedMissingUrlError, StartupEvent.exitedWith 1]
          ∧ ∀ url, StartupEvent.constructedPool url ∉ startupTrace envUrl argv) := by
  refine ⟨?_, ?_, ?_⟩
  · intro h; subst h; rfl
  · intro h a rest ha; subst h; subst ha; rfl
  · intro h ha; subst h; subst ha
    refine ⟨rfl, ?_⟩
    intro url hmem
    simp [startupTrace] at hmem

theorem database_url_resolution_witness :
    startupTrace (some "postgres-env-url") ["postgres-arg-url"]
        = [StartupEvent.constructedPool "postgres-env-url"]
    ∧ startupTrace none ["postgres-arg-url"]
        = [StartupEvent.constructedPool "postgres-arg-url"]
    ∧ startupTrace none []
        = [StartupEvent.printedMissingUrlError, StartupEvent.exitedWith 1] :=
  ⟨(database_url_resolution (some "postgres-env-url") ["postgres-arg-url"]
      "postgres-env-url").1 rfl,
   (database_url_resolution none ["postgres-arg-url"] "x").2.1 rfl
      "postgres-arg-url" [] rfl,
   ((database_url_resolution none [] "x").2.2 rfl rfl).1⟩

/-- Visible outcome of one shutdown invocation (index.ts lines 300-325):
which teardown steps were attempted, which teardown errors were logged
(and swallowed), and the exit code issued, if any. -/
structure ShutdownOutcome where
  poolCloseAttempted : Bool
  transportCloseAttempted : Bool
  loggedErrors : List String
  exitCode : Option Nat
deriving DecidableEq

/-- Why shutdown was invoked (index.ts lines 352-360 and 406-418). -/
inductive ShutdownTrigger
  | sigint
  | sigterm
  | uncaughtException
  | unhandledRejection
  | reconnectExhausted
deriving DecidableEq

/-- The shutdown routine (index.ts lines 300-325): behind the re-entrant
guard it closes the pool and then the transport, each in its own try/catch
whose failure is only logged, and unconditionally calls process.exit(0). -/
def shutdownRun (alreadyShuttingDown poolCloseFails transportCloseFails : Bool) :
    ShutdownOutcome :=
  if alreadyShuttingDown then
    { poolCloseAttempted := false, transportCloseAttempted := false,
      loggedErrors := [], exitCode := none }
  else
    { poolCloseAttempted := true
      transportCloseAttempted := true
      loggedErrors :=
        (if poolCloseFails then ["Database pool closure failed"] else [])
          ++ (if transportCloseFails then ["Transport closure failed"] else [])
      exitCode := some 0 }

/-- The trigger sites (signal handlers at index.ts lines 406-407, fatal
handlers at lines 410-418, exhausted reconnection at lines 353-360) all
invoke the same shutdown routine with no trigger-specific behavior. -/
def handleTrigger (_t : ShutdownTrigger)
    (alreadyShuttingDown poolCloseFails transportCloseFails : Bool) : ShutdownOutcome :=
  shutdownRun alreadyShuttingDown poolCloseFails transportCloseFails

/-- Claim C10: whichever trigger invokes shutdown, and whether or not
closing the pool or the transport fails, an unguarded invocation always
terminates the process with exit code 0 — teardown failures are only
logged, never reflected in the exit code — while a guarded re-invocation
performs no teardown and issues no exit at all; no invocation ever
produces a nonzero exit code. -/
theorem shutdown_exit_code_zero (t : ShutdownTrigger) (g pf tf : Bool) :
    ((handleTrigger t false pf tf).exitCode = some 0)
    ∧ (handleTrigger t g pf tf = shutdownRun g pf tf)
    ∧ ((shutdownRun true pf tf).exitCode = none
        ∧ (shutdownRun true pf tf).poolCloseAttempted = false
        ∧ (shutdownRun true pf tf).transportCloseAttempted = false)
    ∧ ((shutdownRun g pf tf).exitCode = some 0 ∨ (shutdownRun g pf tf).exitCode = none) := by
  refine ⟨rfl, rfl, ⟨rfl, rfl, rfl⟩, ?_⟩
  cases g with
  | false => exact Or.inl rfl
  | true => exact Or.inr rfl
